import Mathlib

/-!
Shallow embedding of `MCP-server-backend/chatbot_server.py`: a FastAPI chat
relay exposing two tools (`getWeather`, `getNews`) and a `/chat` orchestrator
that forwards a user message to a chat-completion API, optionally dispatches
one model-requested tool call, and feeds the result back in a second call.

JSON values flowing through the Python code are modelled by the inductive
`Json`.  Python operations that can raise (`d[k]`, `xs[0]`, `x in d`,
`d.get(k, v)`, `float(x)`, `round(x, 1)`) are modelled as `Except String`
computations whose error component stands for the raised exception's
message.  External HTTP calls and the Python standard-library calls
`json.loads` and `traceback.format_exc` are supplied by environment records;
the outbound calls a handler performs are reported in an explicit trace so
that call-count properties can be stated.  Python floats are modelled by
rationals: exact float rounding and float formatting are not reproduced (no
claim below depends on them).
-/

/-- JSON values, as produced by `resp.json()` in the Python source.  Numbers
are modelled by rationals. -/
inductive Json where
  | null : Json
  | bool : Bool → Json
  | num : ℚ → Json
  | str : String → Json
  | arr : List Json → Json
  | obj : List (String × Json) → Json

mutual

/-- Structural equality of JSON values, modelling Python `==` on parsed
JSON data. -/
def jsonBeq : Json → Json → Bool
  | Json.null, Json.null => true
  | Json.bool a, Json.bool b => a == b
  | Json.num a, Json.num b => a == b
  | Json.str a, Json.str b => a == b
  | Json.arr a, Json.arr b => jsonBeqList a b
  | Json.obj a, Json.obj b => jsonBeqFields a b
  | _, _ => false

/-- Pointwise equality of JSON lists. -/
def jsonBeqList : List Json → List Json → Bool
  | [], [] => true
  | x :: xs, y :: ys => jsonBeq x y && jsonBeqList xs ys
  | _, _ => false

/-- Pointwise equality of JSON object field lists. -/
def jsonBeqFields : List (String × Json) → List (String × Json) → Bool
  | [], [] => true
  | (k, v) :: xs, (l, w) :: ys => k == l && jsonBeq v w && jsonBeqFields xs ys
  | _, _ => false

end

instance : BEq Json := ⟨jsonBeq⟩

/-- Lookup of a key in an object; `none` when the value is not an object or
the key is absent.  Used only to state properties about returned mappings. -/
def jLookup (j : Json) (k : String) : Option Json :=
  match j with
  | Json.obj fs => (fs.find? (fun p => p.1 == k)).map (fun p => p.2)
  | _ => none

/-- Python truthiness of a parsed-JSON value (`if x:`). -/
def pyTruthy : Json → Bool
  | Json.null => false
  | Json.bool b => b
  | Json.num q => !(q == 0)
  | Json.str s => !(s == "")
  | Json.arr xs => !xs.isEmpty
  | Json.obj fs => !fs.isEmpty

/-- Substring test, modelling Python `needle in haystack` on strings. -/
def strContains (hay needle : String) : Bool :=
  needle == "" || (hay.splitOn needle).length ≥ 2

/-- Python `key in x` for a parsed-JSON value `x`: key lookup on dicts,
membership on lists, substring test on strings; raises `TypeError`
otherwise. -/
def pyIn (key : String) : Json → Except String Bool
  | Json.obj fs => Except.ok (fs.find? (fun p => p.1 == key)).isSome
  | Json.arr xs => Except.ok (xs.contains (Json.str key))
  | Json.str s => Except.ok (strContains s key)
  | _ => Except.error "TypeError: argument is not iterable"

/-- Python `x[key]` with a string key: dict lookup raising `KeyError` when
absent, `TypeError` on other values. -/
def pyIndex (j : Json) (key : String) : Except String Json :=
  match j with
  | Json.obj fs =>
    match fs.find? (fun p => p.1 == key) with
    | some p => Except.ok p.2
    | none => Except.error ("KeyError: " ++ key)
  | Json.arr _ => Except.error "TypeError: list indices must be integers"
  | Json.str _ => Except.error "TypeError: string indices must be integers"
  | _ => Except.error "TypeError: object is not subscriptable"

/-- Python `x[i]` with a non-negative integer literal: list indexing (raising
`IndexError` out of range), one-character string extraction, `KeyError` on
dicts, `TypeError` otherwise. -/
def pyIndexNat (j : Json) (i : Nat) : Except String Json :=
  match j with
  | Json.arr xs =>
    match xs.get? i with
    | some v => Except.ok v
    | none => Except.error "IndexError: list index out of range"
  | Json.str s =>
    match s.toList.get? i with
    | some c => Except.ok (Json.str (String.singleton c))
    | none => Except.error "IndexError: string index out of range"
  | Json.obj _ => Except.error "KeyError: integer key"
  | _ => Except.error "TypeError: object is not subscriptable"

/-- Python `x.get(key, dflt)`: defaulting dict lookup, raising
`AttributeError` when `x` is not a dict. -/
def pyGet (j : Json) (key : String) (dflt : Json) : Except String Json :=
  match j with
  | Json.obj fs =>
    match fs.find? (fun p => p.1 == key) with
    | some p => Except.ok p.2
    | none => Except.ok dflt
  | _ => Except.error "AttributeError: object has no attribute get"

/-- Sequencing of fallible steps; an error models an exception propagating
to the enclosing `try`. -/
def bindE {α β : Type} (x : Except String α) (k : α → Except String β) :
    Except String β :=
  match x with
  | Except.error e => Except.error e
  | Except.ok a => k a

/-- Parse a decimal numeral (optional sign, digits, optional fractional
part) into a rational, as accepted by Python `float(...)` on the strings the
geocoding service returns.  Exponent and special-float syntaxes are not
modelled; no claim depends on them. -/
def parseDecimal (s : String) : Option ℚ :=
  let t := s.trim
  let core := if t.startsWith "-" || t.startsWith "+" then t.drop 1 else t
  let sign : ℚ := if t.startsWith "-" then -1 else 1
  match core.splitOn "." with
  | [ip] =>
    match ip.toNat? with
    | some n => some (sign * (n : ℚ))
    | none => none
  | [ip, fp] =>
    if ip = "" && fp = "" then none
    else
      match (if ip = "" then some 0 else ip.toNat?),
            (if fp = "" then some 0 else fp.toNat?) with
      | some n, some f => some (sign * ((n : ℚ) + (f : ℚ) / ((10 : ℚ) ^ fp.length)))
      | _, _ => none
  | _ => none

/-- Python `float(x)` on a parsed-JSON value. -/
def pyFloat : Json → Except String ℚ
  | Json.num q => Except.ok q
  | Json.bool b => Except.ok (if b then 1 else 0)
  | Json.str s =>
    match parseDecimal s with
    | some q => Except.ok q
    | none => Except.error ("ValueError: could not convert string to float: " ++ s)
  | _ => Except.error "TypeError: float() argument must be a string or a real number"

/-- Rounding to one decimal place.  Python rounds floats half-to-even with
binary-float artefacts; rationals with half-up rounding are used instead,
which no claim distinguishes. -/
def roundTo1 (q : ℚ) : ℚ := ((round (q * 10) : ℤ) : ℚ) / 10

/-- Python `round(x, 1)` on a parsed-JSON value. -/
def pyRound1 : Json → Except String Json
  | Json.num q => Except.ok (Json.num (roundTo1 q))
  | Json.bool b => Except.ok (Json.num (if b then 1 else 0))
  | _ => Except.error "TypeError: type does not define a rounding method"

/-- The WMO weather-code table of `getWeather` (source lines 75-84), in
source order. -/
def weather_codes : List (ℤ × String) :=
  [(0, "Clear sky"), (1, "Mainly clear"), (2, "Partly cloudy"), (3, "Overcast"),
   (45, "Fog"), (48, "Depositing rime fog"), (51, "Light drizzle"), (53, "Moderate drizzle"),
   (55, "Dense drizzle"), (56, "Light freezing drizzle"), (57, "Dense freezing drizzle"),
   (61, "Slight rain"), (63, "Moderate rain"), (65, "Heavy rain"), (66, "Light freezing rain"),
   (67, "Heavy freezing rain"), (71, "Slight snow"), (73, "Moderate snow"), (75, "Heavy snow"),
   (77, "Snow grains"), (80, "Slight rain showers"), (81, "Moderate rain showers"),
   (82, "Violent rain showers"), (85, "Slight snow showers"), (86, "Heavy snow showers"),
   (95, "Thunderstorm"), (96, "Thunderstorm with slight hail"),
   (99, "Thunderstorm with heavy hail")]

/-- Numeric lookup in `weather_codes` with default label, modelling
`weather_codes.get(x, "Unknown")` for a numeric key (Python compares dict
keys numerically, so `3.0` hits key `3`). -/
def codeDesc (q : ℚ) : String :=
  match weather_codes.find? (fun p => decide ((p.1 : ℚ) = q)) with
  | some p => p.2
  | none => "Unknown"

/-- The lookup `weather_codes.get(current.get("weather_code", 0), "Unknown")`
applied to the JSON value found under `weather_code`.  Booleans compare
numerically, hashable non-keys fall to the default, and unhashable values
raise. -/
def weatherDescOf : Json → Except String String
  | Json.num q => Except.ok (codeDesc q)
  | Json.bool b => Except.ok (codeDesc (if b then 1 else 0))
  | Json.str _ => Except.ok "Unknown"
  | Json.null => Except.ok "Unknown"
  | Json.arr _ => Except.error "TypeError: unhashable type: list"
  | Json.obj _ => Except.error "TypeError: unhashable type: dict"

/-- Python `str(x)` as used by the f-string `f"Tool \x7btool_name\x7d not found"`.
In the orchestrator this formats only non-container values (lists and dicts
raise `unhashable` at the registry-membership test before any formatting),
so the container cases are placeholders. -/
def pyStr : Json → String
  | Json.null => "None"
  | Json.bool true => "True"
  | Json.bool false => "False"
  | Json.num q => if q.den = 1 then toString q.num else toString q
  | Json.str s => s
  | Json.arr _ => "[...]"
  | Json.obj _ => "\x7b...\x7d"

/-- JSON string escaping for `json.dumps` (quotes and backslashes; control
characters do not occur in the values this system serializes). -/
def escapeJson (s : String) : String :=
  s.foldl
    (fun acc c =>
      acc ++ (if c = '"' then "\\\"" else if c = '\\' then "\\\\" else String.singleton c))
    ""

mutual

/-- Python `json.dumps` with default separators.  Number formatting uses the
rational's canonical form; exact float formatting is not modelled (the
serialized text is only ever embedded opaquely in a follow-up payload). -/
def jsonDumps : Json → String
  | Json.null => "null"
  | Json.bool true => "true"
  | Json.bool false => "false"
  | Json.num q => if q.den = 1 then toString q.num else toString q
  | Json.str s => "\"" ++ escapeJson s ++ "\""
  | Json.arr xs => "[" ++ jsonDumpsList xs ++ "]"
  | Json.obj fs => "\x7b" ++ jsonDumpsFields fs ++ "\x7d"

/-- Comma-separated serialization of a JSON list's elements. -/
def jsonDumpsList : List Json → String
  | [] => ""
  | [x] => jsonDumps x
  | x :: y :: xs => jsonDumps x ++ ", " ++ jsonDumpsList (y :: xs)

/-- Comma-separated serialization of a JSON object's fields. -/
def jsonDumpsFields : List (String × Json) → String
  | [] => ""
  | [(k, v)] => "\"" ++ escapeJson k ++ "\": " ++ jsonDumps v
  | (k, v) :: y :: xs =>
    "\"" ++ escapeJson k ++ "\": " ++ jsonDumps v ++ ", " ++ jsonDumpsFields (y :: xs)

end

/-- External calls performed by `getWeather`: the geocoding request and the
weather-provider request. -/
inductive WCall where
  | geocode : String → WCall
  | wfetch : ℚ → ℚ → WCall
deriving DecidableEq

/-- Environment of `getWeather`: parsed bodies of the two upstream HTTP
responses.  An `error` value models an exception raised by the call or by
response parsing. -/
structure WeatherEnv where
  geoResp : Except String Json
  weatherResp : ℚ → ℚ → Except String Json

/-- The part of `getWeather` after the weather-provider response arrives
(source lines 68-103): current/daily extraction, weather-code translation,
and construction of the structured result, in source evaluation order. -/
def afterFetch (city : String) (lat lon : ℚ) (display_name : Json)
    (weather_data : Json) : Except String Json :=
  bindE (pyIn "current" weather_data) fun hasCur =>
  if hasCur = false then
    Except.ok (Json.obj [("error", Json.str "Weather data not available for this location")])
  else
  bindE (pyIndex weather_data "current") fun current =>
  bindE (pyIndex weather_data "daily") fun daily =>
  bindE (pyGet current "weather_code" (Json.num 0)) fun wc =>
  bindE (weatherDescOf wc) fun weather_desc =>
  bindE (pyGet current "temperature_2m" (Json.num 0)) fun tJ =>
  bindE (pyRound1 tJ) fun temperature =>
  bindE (pyGet current "relative_humidity_2m" (Json.num 0)) fun humidity =>
  bindE (pyGet current "wind_speed_10m" (Json.num 0)) fun windSpeed =>
  bindE (pyGet current "wind_direction_10m" (Json.num 0)) fun windDirection =>
  bindE (pyGet daily "temperature_2m_max" Json.null) fun tmaxOpt =>
  bindE (if pyTruthy tmaxOpt then
           bindE (pyIndex daily "temperature_2m_max") fun a =>
           bindE (pyIndexNat a 0) pyRound1
         else Except.ok Json.null) fun maxTemp =>
  bindE (pyGet daily "temperature_2m_min" Json.null) fun tminOpt =>
  bindE (if pyTruthy tminOpt then
           bindE (pyIndex daily "temperature_2m_min") fun a =>
           bindE (pyIndexNat a 0) pyRound1
         else Except.ok Json.null) fun minTemp =>
  bindE (pyGet daily "precipitation_sum" Json.null) fun precOpt =>
  bindE (if pyTruthy precOpt then
           bindE (pyIndex daily "precipitation_sum") fun a => pyIndexNat a 0
         else Except.ok (Json.num 0)) fun precipitation =>
  Except.ok (Json.obj
    [("city", Json.str city),
     ("location", display_name),
     ("temperature", temperature),
     ("temperatureUnit", Json.str "\xC2\xB0C"),
     ("humidity", humidity),
     ("windSpeed", windSpeed),
     ("windDirection", windDirection),
     ("weather", Json.str weather_desc),
     ("forecast", Json.obj
       [("maxTemp", maxTemp), ("minTemp", minTemp), ("precipitation", precipitation)]),
     ("coordinates", Json.obj [("lat", Json.num lat), ("lon", Json.num lon)])])

/-- Body of `getWeather` inside its `try` (source lines 38-103), returning
the result or the pending exception, together with the trace of upstream
calls performed. -/
def getWeatherRun (env : WeatherEnv) (city : String) :
    Except String Json × List WCall :=
  let t1 : List WCall := [WCall.geocode city]
  match env.geoResp with
  | Except.error e => (Except.error e, t1)
  | Except.ok geo_data =>
    if pyTruthy geo_data = false then
      (Except.ok (Json.obj [("error", Json.str ("City \x27" ++ city ++ "\x27 not found."))]), t1)
    else
      match bindE (pyIndexNat geo_data 0) (fun g0 =>
            bindE (pyIndex g0 "lat") fun latJ =>
            bindE (pyFloat latJ) fun lat =>
            bindE (pyIndex g0 "lon") fun lonJ =>
            bindE (pyFloat lonJ) fun lon =>
            bindE (pyGet g0 "display_name" (Json.str city)) fun dn =>
            Except.ok (lat, lon, dn)) with
      | Except.error e => (Except.error e, t1)
      | Except.ok (lat, lon, dn) =>
        let t2 := t1 ++ [WCall.wfetch lat lon]
        match env.weatherResp lat lon with
        | Except.error e => (Except.error e, t2)
        | Except.ok weather_data => (afterFetch city lat lon dn weather_data, t2)

/-- The tool `getWeather` (source lines 34-106): its `try`/`except` catches
every exception and converts it to an error mapping. -/
def getWeather (env : WeatherEnv) (city : String) : Json × List WCall :=
  match getWeatherRun env city with
  | (Except.ok v, t) => (v, t)
  | (Except.error e, t) =>
    (Json.obj [("error", Json.str ("Failed to fetch weather: " ++ e))], t)

/-- Python `x[:3]` on a parsed-JSON value: a prefix of length at most three
of a list or string, `TypeError` otherwise (a slice is unhashable as a dict
key). -/
def pySlice3 : Json → Except String Json
  | Json.arr xs => Except.ok (Json.arr (xs.take 3))
  | Json.str s => Except.ok (Json.str (s.take 3))
  | _ => Except.error "TypeError: value cannot be sliced"

/-- The comprehension body of `getNews` over a list of articles (source
lines 124-127): keep `(title, link)` pairs of articles whose `title` is
truthy, in order.  The condition and both field accesses are `a.get`
calls, which raise on non-dict elements. -/
def newsItems : List Json → Except String (List Json)
  | [] => Except.ok []
  | a :: rest =>
    bindE (pyGet a "title" Json.null) fun t =>
    if pyTruthy t then
      bindE (pyGet a "link" Json.null) fun l =>
      bindE (newsItems rest) fun xs =>
      Except.ok (Json.obj [("title", t), ("link", l)] :: xs)
    else newsItems rest

/-- Iteration of the comprehension over the sliced `articles` value: lists
iterate their elements; strings iterate one-character strings, whose `.get`
raises; other values are not iterable. -/
def pyComprehend : Json → Except String (List Json)
  | Json.arr xs => newsItems xs
  | Json.str s =>
    if s = "" then Except.ok []
    else Except.error "AttributeError: str object has no attribute get"
  | Json.obj fs =>
    if fs.isEmpty then Except.ok []
    else Except.error "AttributeError: str object has no attribute get"
  | _ => Except.error "TypeError: object is not iterable"

/-- Body of `getNews` inside its `try` (source lines 115-128), given the
parsed news-provider response (or the exception its fetch raised). -/
def getNewsRun (resp : Except String Json) (topic : String) : Except String Json :=
  bindE resp fun data =>
  bindE (pyGet data "results" (Json.arr [])) fun results =>
  bindE (pySlice3 results) fun articles =>
  bindE (pyComprehend articles) fun items =>
  Except.ok (Json.obj [("topic", Json.str topic), ("headlines", Json.arr items)])

/-- The tool `getNews` (source lines 111-130): its `try`/`except` catches
every exception and converts it to an error mapping. -/
def getNews (resp : Except String Json) (topic : String) : Json :=
  match getNewsRun resp topic with
  | Except.ok v => v
  | Except.error e => Json.obj [("error", Json.str ("Failed to fetch news: " ++ e))]

/-- Outbound actions of the `/chat` handler: upstream chat-completion calls
(with their payload) and tool executions (name and parsed arguments). -/
inductive CCall where
  | completion : Json → CCall
  | toolExec : String → Json → CCall

/-- Key set of the `tool_functions` registry (source lines 28, 109, 133). -/
def tool_names : List String := ["getWeather", "getNews"]

/-- Environment of the `/chat` handler: the parsed bodies of the two
chat-completion responses, the behaviour of a dispatched registered tool
(including `**args` keyword expansion), the standard-library JSON parser
applied to the `arguments` value, and `traceback.format_exc()` for a raised
message.  `error` values model raised exceptions. -/
structure ChatEnv where
  firstResp : Except String Json
  secondResp : Json → Except String Json
  runTool : String → Json → Except String Json
  loads : Json → Except String Json
  formatExc : String → String

/-- The static tool manifest sent on the planning call (source lines
147-182). -/
def chat_tools : Json :=
  Json.arr
    [Json.obj
      [("type", Json.str "function"),
       ("function", Json.obj
         [("name", Json.str "getWeather"),
          ("description", Json.str "Get current weather for a city"),
          ("parameters", Json.obj
            [("type", Json.str "object"),
             ("properties", Json.obj
               [("city", Json.obj
                 [("type", Json.str "string"),
                  ("description", Json.str "City name")])]),
             ("required", Json.arr [Json.str "city"])])])],
     Json.obj
      [("type", Json.str "function"),
       ("function", Json.obj
         [("name", Json.str "getNews"),
          ("description", Json.str "Get latest news for a topic"),
          ("parameters", Json.obj
            [("type", Json.str "object"),
             ("properties", Json.obj
               [("topic", Json.obj
                 [("type", Json.str "string"),
                  ("description", Json.str "News topic")])]),
             ("required", Json.arr [Json.str "topic"])])])]]

/-- Payload of the planning call (source lines 190-197). -/
def planningPayload (message : String) : Json :=
  Json.obj
    [("model", Json.str "openai/gpt-4o-mini"),
     ("messages", Json.arr
       [Json.obj [("role", Json.str "user"), ("content", Json.str message)]]),
     ("tools", chat_tools),
     ("tool_choice", Json.str "auto")]

/-- Payload of the follow-up call (source lines 226-237): the user message,
an assistant turn carrying the full original `tool_calls` value, and a
tool-role message with the serialized tool result keyed to the tool-call
id. -/
def followUpPayload (message : String) (toolCalls toolCallId toolResult : Json) : Json :=
  Json.obj
    [("model", Json.str "openai/gpt-4o-mini"),
     ("messages", Json.arr
       [Json.obj [("role", Json.str "user"), ("content", Json.str message)],
        Json.obj [("role", Json.str "assistant"), ("content", Json.str ""),
                  ("tool_calls", toolCalls)],
        Json.obj [("role", Json.str "tool"), ("tool_call_id", toolCallId),
                  ("content", Json.str (jsonDumps toolResult))]])]

/-- The guard `"choices" in result and result["choices"]` (source line 210),
with Python short-circuit evaluation. -/
def choicesGuard (result : Json) : Except String Bool :=
  bindE (pyIn "choices" result) fun h =>
  if h then bindE (pyIndex result "choices") (fun c => Except.ok (pyTruthy c))
  else Except.ok false

/-- The guard `"tool_calls" in message and message["tool_calls"]` (source
line 213), with Python short-circuit evaluation. -/
def toolCallsGuard (msg : Json) : Except String Bool :=
  bindE (pyIn "tool_calls" msg) fun h =>
  if h then bindE (pyIndex msg "tool_calls") (fun tc => Except.ok (pyTruthy tc))
  else Except.ok false

/-- Execution of a registered tool and the follow-up call (source lines
223-251): run the tool, rebuild the payload from `message["tool_calls"]`,
`tool_call["id"]` and the serialized result, post it, and extract the final
answer. -/
def execTool (env : ChatEnv) (message : String) (msg tool_call : Json)
    (s : String) (args : Json) (t1 : List CCall) : Except String Json × List CCall :=
  let t2 := t1 ++ [CCall.toolExec s args]
  match env.runTool s args with
  | Except.error e => (Except.error e, t2)
  | Except.ok tool_result =>
    match pyIndex msg "tool_calls" with
    | Except.error e => (Except.error e, t2)
    | Except.ok tcs =>
      match pyIndex tool_call "id" with
      | Except.error e => (Except.error e, t2)
      | Except.ok tcid =>
        let payload2 := followUpPayload message tcs tcid tool_result
        let t3 := t2 ++ [CCall.completion payload2]
        match env.secondResp payload2 with
        | Except.error e => (Except.error e, t3)
        | Except.ok fu =>
          match bindE (pyIndex fu "choices") (fun cs =>
                bindE (pyIndexNat cs 0) fun c0 =>
                bindE (pyIndex c0 "message") fun m =>
                pyIndex m "content") with
          | Except.error e => (Except.error e, t3)
          | Except.ok ans =>
            (Except.ok (Json.obj [("answer", ans), ("tool_result", tool_result)]), t3)

/-- The registry dispatch `if tool_name in tool_functions` (source lines
222 and 252-253).  The membership test hashes `tool_name`: container values
raise, other non-strings miss the registry and are formatted into the
not-found error. -/
def dispatch (env : ChatEnv) (message : String) (msg tool_call tool_name args : Json)
    (t1 : List CCall) : Except String Json × List CCall :=
  match tool_name with
  | Json.str s =>
    if tool_names.contains s then execTool env message msg tool_call s args t1
    else
      (Except.ok (Json.obj [("error", Json.str ("Tool \x27" ++ s ++ "\x27 not found"))]), t1)
  | Json.arr _ => (Except.error "TypeError: unhashable type: list", t1)
  | Json.obj _ => (Except.error "TypeError: unhashable type: dict", t1)
  | other =>
    (Except.ok (Json.obj
      [("error", Json.str ("Tool \x27" ++ pyStr other ++ "\x27 not found"))]), t1)

/-- Body of the `/chat` handler inside its `try` (source lines 145-258),
returning the response mapping or the pending exception, together with the
trace of outbound calls. -/
def chatRun (env : ChatEnv) (message : String) : Except String Json × List CCall :=
  let t1 : List CCall := [CCall.completion (planningPayload message)]
  match env.firstResp with
  | Except.error e => (Except.error e, t1)
  | Except.ok result =>
    match choicesGuard result with
    | Except.error e => (Except.error e, t1)
    | Except.ok false =>
      (Except.ok (Json.obj [("error", Json.str "No response from OpenRouter")]), t1)
    | Except.ok true =>
      match bindE (pyIndex result "choices") (fun cs =>
            bindE (pyIndexNat cs 0) fun c0 => pyIndex c0 "message") with
      | Except.error e => (Except.error e, t1)
      | Except.ok msg =>
        match toolCallsGuard msg with
        | Except.error e => (Except.error e, t1)
        | Except.ok false =>
          match pyIndex msg "content" with
          | Except.error e => (Except.error e, t1)
          | Except.ok content => (Except.ok (Json.obj [("answer", content)]), t1)
        | Except.ok true =>
          match bindE (pyIndex msg "tool_calls") (fun tcs => pyIndexNat tcs 0) with
          | Except.error e => (Except.error e, t1)
          | Except.ok tool_call =>
            match bindE (pyIndex tool_call "function") (fun f => pyIndex f "name") with
            | Except.error e => (Except.error e, t1)
            | Except.ok tool_name =>
              match bindE (pyIndex tool_call "function") (fun f => pyIndex f "arguments") with
              | Except.error e => (Except.error e, t1)
              | Except.ok argJ =>
                match env.loads argJ with
                | Except.error e => (Except.error e, t1)
                | Except.ok args => dispatch env message msg tool_call tool_name args t1

/-- The `/chat` handler (source lines 142-266): the outermost
`try`/`except` catches every exception and converts it to
`\x7b"error": "Chat processing failed: ...", "details": <trace>\x7d`. -/
def chat (env : ChatEnv) (message : String) : Json × List CCall :=
  match chatRun env message with
  | (Except.ok v, t) => (v, t)
  | (Except.error e, t) =>
    (Json.obj [("error", Json.str ("Chat processing failed: " ++ e)),
               ("details", Json.str (env.formatExc e))], t)

/-- Number of upstream chat-completion calls in a trace. -/
def countC : List CCall → Nat
  | [] => 0
  | CCall.completion _ :: rest => countC rest + 1
  | CCall.toolExec _ _ :: rest => countC rest

/-- Number of tool executions in a trace. -/
def countT : List CCall → Nat
  | [] => 0
  | CCall.completion _ :: rest => countT rest
  | CCall.toolExec _ _ :: rest => countT rest + 1

/-- The tool executions of a trace, in order. -/
def toolExecs : List CCall → List CCall
  | [] => []
  | CCall.completion _ :: rest => toolExecs rest
  | CCall.toolExec s a :: rest => CCall.toolExec s a :: toolExecs rest

/-- A weather environment whose geocoding lookup returns no match. -/
def wenv6 : WeatherEnv :=
  ⟨Except.ok (Json.arr []),
   fun _ _ => Except.ok (Json.obj [("current", Json.obj [])])⟩

/-- A weather environment returning one geocoding match and a current block
whose only field is the given weather code. -/
def wenv7 (c : ℤ) : WeatherEnv :=
  ⟨Except.ok (Json.arr [Json.obj [("lat", Json.num 1), ("lon", Json.num 2)]]),
   fun _ _ => Except.ok (Json.obj
     [("current", Json.obj [("weather_code", Json.num (c : ℚ))]),
      ("daily", Json.obj [])])⟩

/-- A weather environment returning one geocoding match and a current block
with temperature and humidity but no `weather_code` field at all. -/
def wenv9 (t h : ℚ) : WeatherEnv :=
  ⟨Except.ok (Json.arr [Json.obj [("lat", Json.num 1), ("lon", Json.num 2)]]),
   fun _ _ => Except.ok (Json.obj
     [("current", Json.obj
       [("temperature_2m", Json.num t), ("relative_humidity_2m", Json.num h)]),
      ("daily", Json.obj [])])⟩

/-- A tool-call request for `getWeather` on Paris, as the model would emit
it. -/
def w1toolCall : Json :=
  Json.obj
    [("id", Json.str "call1"),
     ("function", Json.obj
       [("name", Json.str "getWeather"),
        ("arguments", Json.str "\x7b\"city\": \"Paris\"\x7d")])]

/-- A planning response carrying one `getWeather` tool call. -/
def w1resp : Json :=
  Json.obj [("choices", Json.arr
    [Json.obj [("message", Json.obj
      [("content", Json.null), ("tool_calls", Json.arr [w1toolCall])])]])]

/-- A follow-up response carrying a final answer. -/
def w1second : Json :=
  Json.obj [("choices", Json.arr
    [Json.obj [("message", Json.obj
      [("content", Json.str "It is sunny in Paris.")])]])]

/-- The parsed arguments of `w1toolCall`. -/
def w1args : Json := Json.obj [("city", Json.str "Paris")]

/-- A tool result mapping. -/
def w1result : Json := Json.obj [("temperature", Json.num 20)]

/-- A chat environment exercising the full two-call tool round trip. -/
def cenv1 : ChatEnv :=
  ⟨Except.ok w1resp, fun _ => Except.ok w1second, fun _ _ => Except.ok w1result,
   fun _ => Except.ok w1args, fun e => e⟩

/-- A chat environment whose planning response answers directly with no
tool call. -/
def cenv2 : ChatEnv :=
  ⟨Except.ok (Json.obj [("choices", Json.arr
     [Json.obj [("message", Json.obj [("content", Json.str "Hello!")])]])]),
   fun _ => Except.error "unused", fun _ _ => Except.error "unused",
   fun _ => Except.error "unused", fun e => e⟩

/-- A planning response requesting an unregistered tool name. -/
def w3resp : Json :=
  Json.obj [("choices", Json.arr
    [Json.obj [("message", Json.obj
      [("content", Json.null),
       ("tool_calls", Json.arr
         [Json.obj
           [("id", Json.str "call3"),
            ("function", Json.obj
              [("name", Json.str "getStocks"),
               ("arguments", Json.str "\x7b\x7d")])]])])]])]

/-- A chat environment whose planning response requests the unregistered
tool `getStocks`. -/
def cenv3 : ChatEnv :=
  ⟨Except.ok w3resp, fun _ => Except.error "unused", fun _ _ => Except.error "unused",
   fun _ => Except.ok (Json.obj []), fun e => e⟩

/-- A chat environment whose planning call raises a network error. -/
def cenv4 : ChatEnv :=
  ⟨Except.error "boom", fun _ => Except.error "unused", fun _ _ => Except.error "unused",
   fun _ => Except.error "unused", fun e => e⟩

/-- A planning response carrying two tool calls in one turn. -/
def w5resp : Json :=
  Json.obj [("choices", Json.arr
    [Json.obj [("message", Json.obj
      [("content", Json.null),
       ("tool_calls", Json.arr
         [w1toolCall,
          Json.obj
            [("id", Json.str "call2"),
             ("function", Json.obj
               [("name", Json.str "getNews"),
                ("arguments", Json.str "\x7b\"topic\": \"ai\"\x7d")])]])])]])]

/-- A chat environment whose planning response carries two tool calls. -/
def cenv5 : ChatEnv :=
  ⟨Except.ok w5resp, fun _ => Except.ok w1second, fun _ _ => Except.ok w1result,
   fun _ => Except.ok w1args, fun e => e⟩

/-- A chat environment whose planning response parses to a bare number, on
which the membership test `"choices" in result` raises. -/
def cenv10 : ChatEnv :=
  ⟨Except.ok (Json.num 5), fun _ => Except.error "unused", fun _ _ => Except.error "unused",
   fun _ => Except.error "unused", fun e => e⟩

/-- A chat environment whose planning response is a mapping without a
`choices` key. -/
def cenv10w : ChatEnv :=
  ⟨Except.ok (Json.obj [("id", Json.str "gen1")]),
   fun _ => Except.error "unused", fun _ _ => Except.error "unused",
   fun _ => Except.error "unused", fun e => e⟩

/-- A news-provider response with four results, the second of which has an
empty title. -/
def newsData8 : Json :=
  Json.obj [("results", Json.arr
    [Json.obj [("title", Json.str "T1"), ("link", Json.str "L1")],
     Json.obj [("title", Json.str ""), ("link", Json.str "L2")],
     Json.obj [("title", Json.str "T3")],
     Json.obj [("title", Json.str "T4"), ("link", Json.str "L4")]])]

/-- The headline list `getNews` produces on `newsData8`: the empty-titled
second article is dropped and only the first three results are
considered. -/
def hl8 : List Json :=
  [Json.obj [("title", Json.str "T1"), ("link", Json.str "L1")],
   Json.obj [("title", Json.str "T3"), ("link", Json.null)]]

/-- The message object of the planning response `w1resp`. -/
def w1msg : Json :=
  Json.obj [("content", Json.null), ("tool_calls", Json.arr [w1toolCall])]

/-- The function object of `w1toolCall`. -/
def w1fn : Json :=
  Json.obj [("name", Json.str "getWeather"),
            ("arguments", Json.str "\x7b\"city\": \"Paris\"\x7d")]

/-- The follow-up message object of `w1second`. -/
def w1fmsg : Json := Json.obj [("content", Json.str "It is sunny in Paris.")]

/-- The second tool call of `w5resp`, which the handler must ignore. -/
def w5call2 : Json :=
  Json.obj
    [("id", Json.str "call2"),
     ("function", Json.obj
       [("name", Json.str "getNews"),
        ("arguments", Json.str "\x7b\"topic\": \"ai\"\x7d")])]

/-- The message object of the two-tool-call planning response `w5resp`. -/
def w5msg : Json :=
  Json.obj [("content", Json.null), ("tool_calls", Json.arr [w1toolCall, w5call2])]

/-- A successful lookup key in an object implies a successful membership
test on it. -/
theorem pyIn_of_pyIndex {j : Json} {k : String} {v : Json}
    (h : pyIndex j k = Except.ok v) : pyIn k j = Except.ok true := by
  cases j with
  | null => simp [pyIndex] at h
  | bool b => simp [pyIndex] at h
  | num q => simp [pyIndex] at h
  | str s => simp [pyIndex] at h
  | arr xs => simp [pyIndex] at h
  | obj fs =>
    simp only [pyIndex] at h
    cases hf : fs.find? (fun p => p.1 == k) with
    | none => rw [hf] at h; simp at h
    | some p => simp [pyIn, hf]

/-- C6: for every city whose geocoding lookup returns no match, `getWeather`
returns exactly the mapping `\x7b"error": "City <name> not found."\x7d` (with the
city name quoted) and performs no weather-provider call. -/
theorem getWeather_city_not_found (env : WeatherEnv) (city : String)
    (h : env.geoResp = Except.ok (Json.arr [])) :
    getWeather env city =
      (Json.obj [("error", Json.str ("City \x27" ++ city ++ "\x27 not found."))],
       [WCall.geocode city]) ∧
    ∀ la lo : ℚ, WCall.wfetch la lo ∉ (getWeather env city).2 := by
  have hrun : getWeatherRun env city =
      (Except.ok (Json.obj [("error", Json.str ("City \x27" ++ city ++ "\x27 not found."))]),
       [WCall.geocode city]) := by
    unfold getWeatherRun
    rw [h]
    rfl
  refine ⟨?_, ?_⟩
  · unfold getWeather
    rw [hrun]
  · intro la lo hmem
    unfold getWeather at hmem
    rw [hrun] at hmem
    simp at hmem

/-- Witness for C6 at a concrete city. -/
theorem getWeather_city_not_found_witness :
    getWeather wenv6 "Atlantis" =
      (Json.obj [("error", Json.str "City \x27Atlantis\x27 not found.")],
       [WCall.geocode "Atlantis"]) ∧
    ∀ la lo : ℚ, WCall.wfetch la lo ∉ (getWeather wenv6 "Atlantis").2 :=
  getWeather_city_not_found wenv6 "Atlantis" rfl

/-- An integer outside the key set of `weather_codes` is not found by the
numeric table lookup, which therefore yields the default label. -/
theorem codeDesc_of_not_mem (c : ℤ) (h : c ∉ weather_codes.map Prod.fst) :
    codeDesc (c : ℚ) = "Unknown" := by
  unfold codeDesc
  have hf : weather_codes.find? (fun p => decide ((p.1 : ℚ) = (c : ℚ))) = none := by
    rw [List.find?_eq_none]
    intro p hp
    simp only [decide_eq_true_eq]
    intro hcast
    exact h (List.mem_map.mpr ⟨p, hp, by exact_mod_cast hcast⟩)
  rw [hf]

/-- C7 counterexample: the weather-code lookup table has 28 entries, not
33. -/
theorem weather_codes_not_33 :
    weather_codes.length = 28 ∧ ¬ weather_codes.length = 33 := by decide

/-- C7 (amended): the weather-code lookup table is a fixed table of 28 known
codes, and for every integer weather-code value outside that table
`getWeather` sets the weather description to exactly "Unknown". -/
theorem weather_codes_table :
    weather_codes.length = 28 ∧
    ∀ c : ℤ, c ∉ weather_codes.map Prod.fst →
      jLookup (getWeather (wenv7 c) "Berlin").1 "weather" = some (Json.str "Unknown") := by
  refine ⟨rfl, ?_⟩
  intro c hc
  have heval : jLookup (getWeather (wenv7 c) "Berlin").1 "weather" =
      some (Json.str (codeDesc (c : ℚ))) := rfl
  rw [heval, codeDesc_of_not_mem c hc]

/-- Witness for C7 at the concrete out-of-table code 42. -/
theorem weather_codes_table_witness :
    (42 : ℤ) ∉ weather_codes.map Prod.fst ∧
    jLookup (getWeather (wenv7 42) "Berlin").1 "weather" = some (Json.str "Unknown") :=
  ⟨by decide, weather_codes_table.2 42 (by decide)⟩

/-- C9: when the weather response's current-conditions block has no
`weather_code` field at all, the weather description is "Clear sky" (the
description of the lookup default 0), not "Unknown". -/
theorem getWeather_missing_code (t h : ℚ) (city : String) :
    jLookup (getWeather (wenv9 t h) city).1 "weather" = some (Json.str "Clear sky") ∧
    jLookup (getWeather (wenv9 t h) city).1 "weather" ≠ some (Json.str "Unknown") := by
  have heval : jLookup (getWeather (wenv9 t h) city).1 "weather" =
      some (Json.str "Clear sky") := rfl
  refine ⟨heval, ?_⟩
  rw [heval]
  simp

/-- Characterization of the `getNews` comprehension: it returns at most one
entry per article, and every entry is a title/link pair built from an
article of the iterated list whose title is truthy. -/
theorem newsItems_spec (xs : List Json) (hl : List Json)
    (h : newsItems xs = Except.ok hl) :
    hl.length ≤ xs.length ∧
    ∀ e ∈ hl, ∃ a ∈ xs, ∃ t l : Json,
      pyGet a "title" Json.null = Except.ok t ∧ pyTruthy t = true ∧
      pyGet a "link" Json.null = Except.ok l ∧
      e = Json.obj [("title", t), ("link", l)] := by
  induction xs generalizing hl with
  | nil =>
    simp only [newsItems] at h
    cases h
    simp
  | cons a rest ih =>
    simp only [newsItems] at h
    cases hT : pyGet a "title" Json.null with
    | error e => rw [hT] at h; simp [bindE] at h
    | ok t =>
      rw [hT] at h
      simp only [bindE] at h
      cases htr : pyTruthy t with
      | false =>
        rw [htr] at h
        simp only [Bool.false_eq_true, if_false] at h
        obtain ⟨hlen, hsh⟩ := ih hl h
        refine ⟨Nat.le_succ_of_le hlen, ?_⟩
        intro e he
        obtain ⟨b, hb, hrest⟩ := hsh e he
        exact ⟨b, List.mem_cons_of_mem a hb, hrest⟩
      | true =>
        rw [htr] at h
        simp only [if_true] at h
        cases hL : pyGet a "link" Json.null with
        | error e => rw [hL] at h; simp [bindE] at h
        | ok l =>
          rw [hL] at h
          simp only [bindE] at h
          cases hR : newsItems rest with
          | error e => rw [hR] at h; simp [bindE] at h
          | ok tailItems =>
            rw [hR] at h
            simp only [bindE] at h
            cases h
            obtain ⟨hlen, hsh⟩ := ih tailItems hR
            refine ⟨Nat.succ_le_succ hlen, ?_⟩
            intro e he
            rcases List.mem_cons.mp he with he0 | heT
            · exact ⟨a, List.mem_cons_self a rest, t, l, hT, htr, hL, he0⟩
            · obtain ⟨b, hb, hrest⟩ := hsh e heT
              exact ⟨b, List.mem_cons_of_mem a hb, hrest⟩

/-- Inversion of a successful `getNewsRun`: the response parsed to some
`data`, its `results` field was sliced to `articles`, the comprehension
produced `items`, and the returned mapping is the topic/headlines pair. -/
theorem getNewsRun_ok_inv (resp : Except String Json) (topic : String) (v : Json)
    (h : getNewsRun resp topic = Except.ok v) :
    ∃ data results articles items,
      resp = Except.ok data ∧
      pyGet data "results" (Json.arr []) = Except.ok results ∧
      pySlice3 results = Except.ok articles ∧
      pyComprehend articles = Except.ok items ∧
      v = Json.obj [("topic", Json.str topic), ("headlines", Json.arr items)] := by
  unfold getNewsRun at h
  cases hresp : resp with
  | error e => rw [hresp] at h; simp [bindE] at h
  | ok data =>
    rw [hresp] at h
    simp only [bindE] at h
    cases hres : pyGet data "results" (Json.arr []) with
    | error e => rw [hres] at h; simp at h
    | ok results =>
      rw [hres] at h
      dsimp only at h
      cases hsl : pySlice3 results with
      | error e => rw [hsl] at h; simp at h
      | ok articles =>
        rw [hsl] at h
        dsimp only at h
        cases hco : pyComprehend articles with
        | error e => rw [hco] at h; simp at h
        | ok items =>
          rw [hco] at h
          dsimp only at h
          cases h
          exact ⟨data, results, articles, items, rfl, hres, hsl, hco, rfl⟩

/-- C8: every `headlines` list `getNews` returns has at most 3 entries, each
entry is a title/link pair with a truthy (non-empty) title, and when the
provider response carries a `results` list the entries come from its first
three elements. -/
theorem getNews_headlines (resp : Except String Json) (topic : String) (hl : List Json)
    (h : jLookup (getNews resp topic) "headlines" = some (Json.arr hl)) :
    hl.length ≤ 3 ∧
    (∀ e ∈ hl, ∃ a t l : Json, pyTruthy t = true ∧
      e = Json.obj [("title", t), ("link", l)] ∧
      pyGet a "title" Json.null = Except.ok t) ∧
    (∀ data : Json, ∀ rs : List Json, resp = Except.ok data →
      pyGet data "results" (Json.arr []) = Except.ok (Json.arr rs) →
      ∀ e ∈ hl, ∃ a ∈ rs.take 3, ∃ t l : Json,
        pyGet a "title" Json.null = Except.ok t ∧ pyTruthy t = true ∧
        pyGet a "link" Json.null = Except.ok l ∧
        e = Json.obj [("title", t), ("link", l)]) := by
  unfold getNews at h
  cases hrun : getNewsRun resp topic with
  | error e => rw [hrun] at h; simp [jLookup] at h
  | ok v =>
    rw [hrun] at h
    obtain ⟨data, results, articles, items, hresp, hres, hsl, hco, hv⟩ :=
      getNewsRun_ok_inv resp topic v hrun
    subst hv
    have hitems : items = hl := by
      simp [jLookup] at h
      exact h
    subst hitems
    have hfromList : ∀ xs : List Json, articles = Json.arr xs →
        newsItems xs = Except.ok items := by
      intro xs hx
      rw [hx] at hco
      simp [pyComprehend] at hco
      exact hco
    have hlen3 : items.length ≤ 3 := by
      cases articles with
      | arr xs =>
        have hx := hfromList xs rfl
        have hspec := newsItems_spec xs items hx
        have hxs3 : xs.length ≤ 3 := by
          cases results with
          | arr rs =>
            simp only [pySlice3] at hsl
            cases hsl
            simp
          | str s => simp [pySlice3] at hsl
          | null => simp [pySlice3] at hsl
          | bool b => simp [pySlice3] at hsl
          | num q => simp [pySlice3] at hsl
          | obj fs => simp [pySlice3] at hsl
        exact le_trans hspec.1 hxs3
      | str s =>
        simp only [pyComprehend] at hco
        by_cases hs : s = ""
        · rw [if_pos hs] at hco; cases hco; simp
        · rw [if_neg hs] at hco; exact absurd hco (by simp)
      | null => simp [pyComprehend] at hco
      | bool b => simp [pyComprehend] at hco
      | num q => simp [pyComprehend] at hco
      | obj fs =>
        simp only [pyComprehend] at hco
        by_cases hfs : fs.isEmpty
        · rw [if_pos hfs] at hco; cases hco; simp
        · rw [if_neg hfs] at hco; exact absurd hco (by simp)
    refine ⟨hlen3, ?_, ?_⟩
    · intro e he
      cases articles with
      | arr xs =>
        have hx := hfromList xs rfl
        obtain ⟨a, _, t, l, hT, htr, hL, heq⟩ := (newsItems_spec xs items hx).2 e he
        exact ⟨a, t, l, htr, heq, hT⟩
      | str s =>
        simp only [pyComprehend] at hco
        by_cases hs : s = ""
        · rw [if_pos hs] at hco; cases hco; simp at he
        · rw [if_neg hs] at hco; exact absurd hco (by simp)
      | null => simp [pyComprehend] at hco
      | bool b => simp [pyComprehend] at hco
      | num q => simp [pyComprehend] at hco
      | obj fs =>
        simp only [pyComprehend] at hco
        by_cases hfs : fs.isEmpty
        · rw [if_pos hfs] at hco; cases hco; simp at he
        · rw [if_neg hfs] at hco; exact absurd hco (by simp)
    · intro data0 rs hresp0 hres0 e he
      rw [hresp0] at hresp
      cases hresp
      rw [hres0] at hres
      cases hres
      simp only [pySlice3] at hsl
      cases hsl
      have hx := hfromList (rs.take 3) rfl
      exact (newsItems_spec (rs.take 3) items hx).2 e he

/-- Witness for C8 on a concrete four-article provider response. -/
theorem getNews_headlines_witness :
    jLookup (getNews (Except.ok newsData8) "tech") "headlines" = some (Json.arr hl8) ∧
    hl8.length ≤ 3 ∧
    (∀ e ∈ hl8, ∃ a t l : Json, pyTruthy t = true ∧
      e = Json.obj [("title", t), ("link", l)] ∧
      pyGet a "title" Json.null = Except.ok t) ∧
    (∀ data : Json, ∀ rs : List Json,
      (Except.ok newsData8 : Except String Json) = Except.ok data →
      pyGet data "results" (Json.arr []) = Except.ok (Json.arr rs) →
      ∀ e ∈ hl8, ∃ a ∈ rs.take 3, ∃ t l : Json,
        pyGet a "title" Json.null = Except.ok t ∧ pyTruthy t = true ∧
        pyGet a "link" Json.null = Except.ok l ∧
        e = Json.obj [("title", t), ("link", l)]) :=
  ⟨rfl, getNews_headlines (Except.ok newsData8) "tech" hl8 rfl⟩

/-- Tool executions distribute over trace concatenation. -/
theorem toolExecs_append (a b : List CCall) :
    toolExecs (a ++ b) = toolExecs a ++ toolExecs b := by
  induction a with
  | nil => rfl
  | cons x rest ih => cases x <;> simp [toolExecs, ih]

/-- Completion counts distribute over trace concatenation. -/
theorem countC_append (a b : List CCall) :
    countC (a ++ b) = countC a + countC b := by
  induction a with
  | nil => simp [countC]
  | cons x rest ih =>
    cases x with
    | completion p => simp [countC, ih]; omega
    | toolExec s a => simp [countC, ih]

/-- Tool-execution counts distribute over trace concatenation. -/
theorem countT_append (a b : List CCall) :
    countT (a ++ b) = countT a + countT b := by
  induction a with
  | nil => simp [countT]
  | cons x rest ih =>
    cases x with
    | completion p => simp [countT, ih]
    | toolExec s a => simp [countT, ih]; omega

/-- The handler's trace is the body's trace: the outer `except` does not
perform calls. -/
theorem chat_trace (env : ChatEnv) (message : String) :
    (chat env message).2 = (chatRun env message).2 := by
  unfold chat
  rcases h : chatRun env message with ⟨res, t⟩
  cases res <;> rfl

/-- C4 (amended): whenever any step of the orchestrator body raises an
exception, the handler returns the mapping with error
"Chat processing failed: <message>" and details the formatted trace; the
exception is never propagated (the handler is a total function producing
this mapping). -/
theorem chat_failure (env : ChatEnv) (message : String) (e : String) (t : List CCall)
    (h : chatRun env message = (Except.error e, t)) :
    chat env message =
      (Json.obj [("error", Json.str ("Chat processing failed: " ++ e)),
                 ("details", Json.str (env.formatExc e))], t) := by
  unfold chat
  rw [h]

/-- Witness for C4: a planning call raising a network error. -/
theorem chat_failure_witness :
    chat cenv4 "hi" =
      (Json.obj [("error", Json.str "Chat processing failed: boom"),
                 ("details", Json.str "boom")],
       [CCall.completion (planningPayload "hi")]) :=
  chat_failure cenv4 "hi" "boom" [CCall.completion (planningPayload "hi")] rfl

/-- C4 counterexample: at a concrete failing input the error string starts
with capitalized "Chat processing failed: ", so the claimed lowercase
"chat processing failed: <message>" shape does not match it. -/
theorem chat_failure_lowercase_cex :
    jLookup (chat cenv4 "hi").1 "error" = some (Json.str "Chat processing failed: boom") ∧
    "Chat processing failed: boom" ≠ "chat processing failed: boom" :=
  ⟨rfl, by decide⟩

/-- C10 (amended): for every planning response whose parsed body reports no
`choices` membership (in particular a mapping lacking the key), or maps
`choices` to a falsy value such as an empty sequence, the handler returns
exactly the "No response from OpenRouter" error after a single completion
call.  (For a non-container body such as a bare number the membership test
itself raises and the handler returns the chat-processing-failed mapping
instead.) -/
theorem chat_no_choices (env : ChatEnv) (message : String) (r cv : Json)
    (h1 : env.firstResp = Except.ok r)
    (h2 : pyIn "choices" r = Except.ok false ∨
          (pyIndex r "choices" = Except.ok cv ∧ pyTruthy cv = false)) :
    chat env message =
      (Json.obj [("error", Json.str "No response from OpenRouter")],
       [CCall.completion (planningPayload message)]) := by
  have hg : choicesGuard r = Except.ok false := by
    rcases h2 with h2 | ⟨hidx, htr⟩
    · simp [choicesGuard, h2, bindE]
    · have hin := pyIn_of_pyIndex hidx
      simp [choicesGuard, hin, bindE, hidx, htr]
  unfold chat chatRun
  rw [h1]
  dsimp only
  rw [hg]

/-- Witness for C10 at a mapping body with no `choices` key. -/
theorem chat_no_choices_witness :
    chat cenv10w "hi" =
      (Json.obj [("error", Json.str "No response from OpenRouter")],
       [CCall.completion (planningPayload "hi")]) :=
  chat_no_choices cenv10w "hi" (Json.obj [("id", Json.str "gen1")]) Json.null
    rfl (Or.inl rfl)

/-- C10 counterexample: a planning response parsing to the bare number 5
lacks a `choices` key, yet the handler returns the chat-processing-failed
mapping, not the "No response from OpenRouter" error and no answer. -/
theorem chat_no_choices_cex :
    jLookup (chat cenv10 "hi").1 "error" =
      some (Json.str "Chat processing failed: TypeError: argument is not iterable") ∧
    jLookup (chat cenv10 "hi").1 "error" ≠ some (Json.str "No response from OpenRouter") ∧
    jLookup (chat cenv10 "hi").1 "answer" = none := by
  have h : jLookup (chat cenv10 "hi").1 "error" =
      some (Json.str "Chat processing failed: TypeError: argument is not iterable") := rfl
  refine ⟨h, ?_, rfl⟩
  rw [h]
  simp only [ne_eq, Option.some.injEq, Json.str.injEq]
  decide

/-- C2: when the planning response's first choice's message carries no
tool-call request, the handler returns that message's content verbatim as
the answer, makes exactly one upstream completion call, and executes no
tool. -/
theorem chat_direct_answer (env : ChatEnv) (message : String)
    (r cs c0 msg tcv content : Json)
    (h1 : env.firstResp = Except.ok r)
    (h2 : pyIn "choices" r = Except.ok true)
    (h3 : pyIndex r "choices" = Except.ok cs)
    (h4 : pyTruthy cs = true)
    (h5 : pyIndexNat cs 0 = Except.ok c0)
    (h6 : pyIndex c0 "message" = Except.ok msg)
    (h7 : pyIn "tool_calls" msg = Except.ok false ∨
          (pyIndex msg "tool_calls" = Except.ok tcv ∧ pyTruthy tcv = false))
    (h8 : pyIndex msg "content" = Except.ok content) :
    chat env message =
      (Json.obj [("answer", content)], [CCall.completion (planningPayload message)]) ∧
    countC (chat env message).2 = 1 ∧ countT (chat env message).2 = 0 := by
  have hg : choicesGuard r = Except.ok true := by
    simp [choicesGuard, h2, bindE, h3, h4]
  have hg2 : toolCallsGuard msg = Except.ok false := by
    rcases h7 with h7 | ⟨hidx, htr⟩
    · simp [toolCallsGuard, h7, bindE]
    · have hin := pyIn_of_pyIndex hidx
      simp [toolCallsGuard, hin, bindE, hidx, htr]
  have hrun : chatRun env message =
      (Except.ok (Json.obj [("answer", content)]),
       [CCall.completion (planningPayload message)]) := by
    simp only [chatRun, h1, hg, bindE, h3, h5, h6, hg2, h8]
  have hchat : chat env message =
      (Json.obj [("answer", content)], [CCall.completion (planningPayload message)]) := by
    unfold chat
    rw [hrun]
  exact ⟨hchat, by rw [hchat]; rfl, by rw [hchat]; rfl⟩

/-- Witness for C2 on a concrete tool-free planning response. -/
theorem chat_direct_answer_witness :
    chat cenv2 "hi" =
      (Json.obj [("answer", Json.str "Hello!")],
       [CCall.completion (planningPayload "hi")]) ∧
    countC (chat cenv2 "hi").2 = 1 ∧ countT (chat cenv2 "hi").2 = 0 :=
  chat_direct_answer cenv2 "hi"
    (Json.obj [("choices", Json.arr
      [Json.obj [("message", Json.obj [("content", Json.str "Hello!")])]])])
    (Json.arr [Json.obj [("message", Json.obj [("content", Json.str "Hello!")])]])
    (Json.obj [("message", Json.obj [("content", Json.str "Hello!")])])
    (Json.obj [("content", Json.str "Hello!")])
    Json.null
    (Json.str "Hello!")
    rfl rfl rfl rfl rfl rfl (Or.inl rfl) rfl

/-- C3: when the planning response's first tool-call request names a tool
absent from the registry, the handler returns exactly the
"Tool <name> not found" error mapping, makes no second completion call, and
raises no exception (the result is this mapping, not the processing-failed
one). -/
theorem chat_unknown_tool (env : ChatEnv) (message : String)
    (r cs c0 msg tcs tc f argJ args : Json) (nm : String)
    (h1 : env.firstResp = Except.ok r)
    (h2 : pyIn "choices" r = Except.ok true)
    (h3 : pyIndex r "choices" = Except.ok cs)
    (h4 : pyTruthy cs = true)
    (h5 : pyIndexNat cs 0 = Except.ok c0)
    (h6 : pyIndex c0 "message" = Except.ok msg)
    (h7 : pyIn "tool_calls" msg = Except.ok true)
    (h8 : pyIndex msg "tool_calls" = Except.ok tcs)
    (h9 : pyTruthy tcs = true)
    (h10 : pyIndexNat tcs 0 = Except.ok tc)
    (h11 : pyIndex tc "function" = Except.ok f)
    (h12 : pyIndex f "name" = Except.ok (Json.str nm))
    (h13 : tool_names.contains nm = false)
    (h14 : pyIndex f "arguments" = Except.ok argJ)
    (h15 : env.loads argJ = Except.ok args) :
    chat env message =
      (Json.obj [("error", Json.str ("Tool \x27" ++ nm ++ "\x27 not found"))],
       [CCall.completion (planningPayload message)]) ∧
    countC (chat env message).2 = 1 ∧ countT (chat env message).2 = 0 := by
  have hg : choicesGuard r = Except.ok true := by
    simp [choicesGuard, h2, bindE, h3, h4]
  have hg2 : toolCallsGuard msg = Except.ok true := by
    simp [toolCallsGuard, h7, bindE, h8, h9]
  have hrun : chatRun env message =
      (Except.ok (Json.obj [("error", Json.str ("Tool \x27" ++ nm ++ "\x27 not found"))]),
       [CCall.completion (planningPayload message)]) := by
    simp only [chatRun, h1, hg, bindE, h3, h5, h6, hg2, h8, h10, h11, h12, h14, h15,
      dispatch, h13, Bool.false_eq_true, if_false]
  have hchat : chat env message =
      (Json.obj [("error", Json.str ("Tool \x27" ++ nm ++ "\x27 not found"))],
       [CCall.completion (planningPayload message)]) := by
    unfold chat
    rw [hrun]
  exact ⟨hchat, by rw [hchat]; rfl, by rw [hchat]; rfl⟩

/-- Witness for C3 on a planning response requesting `getStocks`. -/
theorem chat_unknown_tool_witness :
    chat cenv3 "hi" =
      (Json.obj [("error", Json.str "Tool \x27getStocks\x27 not found")],
       [CCall.completion (planningPayload "hi")]) ∧
    countC (chat cenv3 "hi").2 = 1 ∧ countT (chat cenv3 "hi").2 = 0 :=
  chat_unknown_tool cenv3 "hi"
    w3resp
    (Json.arr [Json.obj [("message", Json.obj
      [("content", Json.null),
       ("tool_calls", Json.arr
         [Json.obj
           [("id", Json.str "call3"),
            ("function", Json.obj
              [("name", Json.str "getStocks"),
               ("arguments", Json.str "\x7b\x7d")])]])])]])
    (Json.obj [("message", Json.obj
      [("content", Json.null),
       ("tool_calls", Json.arr
         [Json.obj
           [("id", Json.str "call3"),
            ("function", Json.obj
              [("name", Json.str "getStocks"),
               ("arguments", Json.str "\x7b\x7d")])]])])])
    (Json.obj
      [("content", Json.null),
       ("tool_calls", Json.arr
         [Json.obj
           [("id", Json.str "call3"),
            ("function", Json.obj
              [("name", Json.str "getStocks"),
               ("arguments", Json.str "\x7b\x7d")])]])])
    (Json.arr
      [Json.obj
        [("id", Json.str "call3"),
         ("function", Json.obj
           [("name", Json.str "getStocks"),
            ("arguments", Json.str "\x7b\x7d")])]])
    (Json.obj
      [("id", Json.str "call3"),
       ("function", Json.obj
         [("name", Json.str "getStocks"),
          ("arguments", Json.str "\x7b\x7d")])])
    (Json.obj
      [("name", Json.str "getStocks"),
       ("arguments", Json.str "\x7b\x7d")])
    (Json.str "\x7b\x7d")
    (Json.obj [])
    "getStocks"
    rfl rfl rfl rfl rfl rfl rfl rfl rfl rfl rfl rfl rfl rfl rfl

/-- C1: when the planning response's first choice's message carries a
tool-call request naming a registered tool whose arguments parse, the
handler performs exactly two upstream completion calls, answers with the
second call's message content, and reports the dispatched tool's returned
mapping as `tool_result`. -/
theorem chat_tool_round_trip (env : ChatEnv) (message : String)
    (r cs c0 msg tcs tc f argJ args tres tcid fu fcs fc0 fmsg ans : Json) (nm : String)
    (h1 : env.firstResp = Except.ok r)
    (h2 : pyIn "choices" r = Except.ok true)
    (h3 : pyIndex r "choices" = Except.ok cs)
    (h4 : pyTruthy cs = true)
    (h5 : pyIndexNat cs 0 = Except.ok c0)
    (h6 : pyIndex c0 "message" = Except.ok msg)
    (h7 : pyIn "tool_calls" msg = Except.ok true)
    (h8 : pyIndex msg "tool_calls" = Except.ok tcs)
    (h9 : pyTruthy tcs = true)
    (h10 : pyIndexNat tcs 0 = Except.ok tc)
    (h11 : pyIndex tc "function" = Except.ok f)
    (h12 : pyIndex f "name" = Except.ok (Json.str nm))
    (h13 : nm = "getWeather" ∨ nm = "getNews")
    (h14 : pyIndex f "arguments" = Except.ok argJ)
    (h15 : env.loads argJ = Except.ok args)
    (h16 : env.runTool nm args = Except.ok tres)
    (h17 : pyIndex tc "id" = Except.ok tcid)
    (h18 : env.secondResp (followUpPayload message tcs tcid tres) = Except.ok fu)
    (h19 : pyIndex fu "choices" = Except.ok fcs)
    (h20 : pyIndexNat fcs 0 = Except.ok fc0)
    (h21 : pyIndex fc0 "message" = Except.ok fmsg)
    (h22 : pyIndex fmsg "content" = Except.ok ans) :
    chat env message =
      (Json.obj [("answer", ans), ("tool_result", tres)],
       [CCall.completion (planningPayload message),
        CCall.toolExec nm args,
        CCall.completion (followUpPayload message tcs tcid tres)]) ∧
    countC (chat env message).2 = 2 ∧ countT (chat env message).2 = 1 := by
  have hg : choicesGuard r = Except.ok true := by
    simp [choicesGuard, h2, bindE, h3, h4]
  have hg2 : toolCallsGuard msg = Except.ok true := by
    simp [toolCallsGuard, h7, bindE, h8, h9]
  have hcont : tool_names.contains nm = true := by
    rcases h13 with h | h <;> subst h <;> rfl
  have hrun : chatRun env message =
      (Except.ok (Json.obj [("answer", ans), ("tool_result", tres)]),
       [CCall.completion (planningPayload message),
        CCall.toolExec nm args,
        CCall.completion (followUpPayload message tcs tcid tres)]) := by
    simp only [chatRun, h1, hg, bindE, h3, h5, h6, hg2, h8, h10, h11, h12, h14, h15,
      dispatch, hcont, if_true, execTool, h16, h17, h18, h19, h20, h21, h22,
      List.cons_append, List.nil_append]
  have hchat : chat env message =
      (Json.obj [("answer", ans), ("tool_result", tres)],
       [CCall.completion (planningPayload message),
        CCall.toolExec nm args,
        CCall.completion (followUpPayload message tcs tcid tres)]) := by
    unfold chat
    rw [hrun]
  exact ⟨hchat, by rw [hchat]; rfl, by rw [hchat]; rfl⟩

/-- Witness for C1 on a concrete `getWeather` round trip. -/
theorem chat_tool_round_trip_witness :
    chat cenv1 "weather in Paris" =
      (Json.obj [("answer", Json.str "It is sunny in Paris."), ("tool_result", w1result)],
       [CCall.completion (planningPayload "weather in Paris"),
        CCall.toolExec "getWeather" w1args,
        CCall.completion
          (followUpPayload "weather in Paris" (Json.arr [w1toolCall]) (Json.str "call1") w1result)]) ∧
    countC (chat cenv1 "weather in Paris").2 = 2 ∧
    countT (chat cenv1 "weather in Paris").2 = 1 :=
  chat_tool_round_trip cenv1 "weather in Paris"
    w1resp
    (Json.arr [Json.obj [("message", w1msg)]])
    (Json.obj [("message", w1msg)])
    w1msg
    (Json.arr [w1toolCall])
    w1toolCall
    w1fn
    (Json.str "\x7b\"city\": \"Paris\"\x7d")
    w1args
    w1result
    (Json.str "call1")
    w1second
    (Json.arr [Json.obj [("message", w1fmsg)]])
    (Json.obj [("message", w1fmsg)])
    w1fmsg
    (Json.str "It is sunny in Paris.")
    "getWeather"
    rfl rfl rfl rfl rfl rfl rfl rfl rfl rfl rfl rfl (Or.inl rfl) rfl rfl rfl rfl rfl
    rfl rfl rfl rfl

/-- Whatever happens after dispatch, `execTool` adds exactly one tool
execution to the trace. -/
theorem execTool_toolExecs (env : ChatEnv) (message : String) (msg tc : Json)
    (s : String) (args : Json) (t1 : List CCall) :
    toolExecs (execTool env message msg tc s args t1).2 =
      toolExecs t1 ++ [CCall.toolExec s args] := by
  unfold execTool
  dsimp only
  repeat' split
  all_goals simp [toolExecs_append, toolExecs]

/-- `execTool` adds at most one completion call to the trace. -/
theorem execTool_countC (env : ChatEnv) (message : String) (msg tc : Json)
    (s : String) (args : Json) (t1 : List CCall) :
    countC (execTool env message msg tc s args t1).2 ≤ countC t1 + 1 := by
  unfold execTool
  dsimp only
  repeat' split
  all_goals simp [countC_append, countC]

/-- `execTool` adds exactly one tool execution to the trace's count. -/
theorem execTool_countT (env : ChatEnv) (message : String) (msg tc : Json)
    (s : String) (args : Json) (t1 : List CCall) :
    countT (execTool env message msg tc s args t1).2 = countT t1 + 1 := by
  unfold execTool
  dsimp only
  repeat' split
  all_goals simp [countT_append, countT]

/-- The orchestrator body performs at most two completion calls. -/
theorem chatRun_countC_le (env : ChatEnv) (message : String) :
    countC (chatRun env message).2 ≤ 2 := by
  unfold chatRun dispatch
  dsimp only
  repeat' split
  all_goals
    try exact le_trans (execTool_countC _ _ _ _ _ _ _) (by simp [countC])
  all_goals simp [countC]

/-- The orchestrator body performs at most one tool execution. -/
theorem chatRun_countT_le (env : ChatEnv) (message : String) :
    countT (chatRun env message).2 ≤ 1 := by
  unfold chatRun dispatch
  dsimp only
  repeat' split
  all_goals
    try exact le_of_eq_of_le (execTool_countT _ _ _ _ _ _ _) (by simp [countT])
  all_goals simp [countT]

/-- C5: the handler makes at most two upstream completion calls and at most
one tool execution on every input; and when the planning response carries
more than one tool-call request (with the first naming a registered tool and
parseable arguments), only the first request is dispatched and the rest are
ignored. -/
theorem chat_first_tool_only :
    (∀ env : ChatEnv, ∀ message : String,
      countC (chat env message).2 ≤ 2 ∧ countT (chat env message).2 ≤ 1) ∧
    (∀ env : ChatEnv, ∀ message : String,
     ∀ r cs c0 msg tc1 tc2 : Json, ∀ rest : List Json,
     ∀ f argJ args : Json, ∀ nm : String,
      env.firstResp = Except.ok r →
      pyIn "choices" r = Except.ok true →
      pyIndex r "choices" = Except.ok cs →
      pyTruthy cs = true →
      pyIndexNat cs 0 = Except.ok c0 →
      pyIndex c0 "message" = Except.ok msg →
      pyIn "tool_calls" msg = Except.ok true →
      pyIndex msg "tool_calls" = Except.ok (Json.arr (tc1 :: tc2 :: rest)) →
      pyIndex tc1 "function" = Except.ok f →
      pyIndex f "name" = Except.ok (Json.str nm) →
      tool_names.contains nm = true →
      pyIndex f "arguments" = Except.ok argJ →
      env.loads argJ = Except.ok args →
      toolExecs (chat env message).2 = [CCall.toolExec nm args]) := by
  constructor
  · intro env message
    rw [chat_trace env message]
    exact ⟨chatRun_countC_le env message, chatRun_countT_le env message⟩
  · intro env message r cs c0 msg tc1 tc2 rest f argJ args nm
      h1 h2 h3 h4 h5 h6 h7 h8 h11 h12 hcont h14 h15
    have hg : choicesGuard r = Except.ok true := by
      simp [choicesGuard, h2, bindE, h3, h4]
    have hg2 : toolCallsGuard msg = Except.ok true := by
      simp [toolCallsGuard, h7, bindE, h8, pyTruthy]
    have h10 : pyIndexNat (Json.arr (tc1 :: tc2 :: rest)) 0 = Except.ok tc1 := rfl
    have hrun : chatRun env message = execTool env message msg tc1 nm args
        [CCall.completion (planningPayload message)] := by
      simp only [chatRun, h1, hg, bindE, h3, h5, h6, hg2, h8, h10, h11, h12, h14, h15,
        dispatch, hcont, if_true]
    rw [chat_trace env message, hrun, execTool_toolExecs]
    rfl

/-- Witness for C5 on a planning response with two tool calls: only the
first is dispatched. -/
theorem chat_first_tool_only_witness :
    (countC (chat cenv5 "hi").2 ≤ 2 ∧ countT (chat cenv5 "hi").2 ≤ 1) ∧
    toolExecs (chat cenv5 "hi").2 = [CCall.toolExec "getWeather" w1args] :=
  ⟨chat_first_tool_only.1 cenv5 "hi",
   chat_first_tool_only.2 cenv5 "hi"
     w5resp
     (Json.arr [Json.obj [("message", w5msg)]])
     (Json.obj [("message", w5msg)])
     w5msg
     w1toolCall
     w5call2
     []
     w1fn
     (Json.str "\x7b\"city\": \"Paris\"\x7d")
     w1args
     "getWeather"
     rfl rfl rfl rfl rfl rfl rfl rfl rfl rfl rfl rfl rfl⟩
